import Mathlib

/-!
Shallow embedding of the render-to-PDF-and-publish pipeline of the
bolt-projekt repository, centred on the hook `usePdfUpload`
(src/hooks/usePdfUpload.js) and the template assembler
`generatePurchaseConfirmationHTML` (src/lib/pdfGenerator.jsx).

External collaborators (Supabase storage, the `ankauf_requests` table,
the toast sink, the DOM, html2pdf/jsPDF) are modelled as an explicit
environment describing the outcome of each awaited effectful step; the
coordinator itself is a pure function of that environment, faithful to
the JavaScript control flow (validation, deduplication, try/catch/finally,
JS truthiness of strings).
-/

namespace BoltPdf

/-- JS truthiness of a possibly-absent string: `null`/`undefined` and `""`
are falsy, every other string is truthy. -/
def truthyStr : Option String → Bool
  | none => false
  | some s => !(s == "")

/-- The `pdfUploadStatus` React state of `usePdfUpload`:
`{ uploading, success, error, url }`. -/
structure PublishStatus where
  uploading : Bool
  success : Bool
  error : Option String
  url : Option String
deriving Repr, DecidableEq

/-- Initial value of `pdfUploadStatus` (usePdfUpload.js lines 60-65). -/
def initialPdfUploadStatus : PublishStatus :=
  { uploading := false, success := false, error := none, url := none }

/-- The status written at attempt start (usePdfUpload.js line 95). -/
def uploadingStartStatus : PublishStatus :=
  { uploading := true, success := false, error := none, url := none }

/-- The fields of `confirmationData` that the coordinator's control flow
reads or writes. `submissionDate` is `Option String` because the code
tests it for JS truthiness and assigns it when falsy. -/
structure ConfirmationData where
  submissionDate : Option String
  name : String
  email : String
  address : String
deriving Repr, DecidableEq

/- ## Filename sanitization (usePdfUpload.js lines 156 and 186)
`ankaufsNummer.replace(/[^a-zA-Z0-9-_]/g, '_')`: the regex replaces each
single character outside the class `[a-zA-Z0-9-_]` with `'_'`, i.e. it is
a character-wise map over the string. -/

/-- Membership in the regex character class `[a-zA-Z0-9-_]`
(the ranges `a-z`, `A-Z`, `0-9` and the literals `-`, `_`). -/
def allowedFileChar (c : Char) : Bool :=
  ('a' ≤ c && c ≤ 'z') || ('A' ≤ c && c ≤ 'Z') || ('0' ≤ c && c ≤ '9')
    || c == '-' || c == '_'

/-- `s.replace(/[^a-zA-Z0-9-_]/g, '_')`. -/
def sanitizeAnkaufsNummer (s : String) : String :=
  ⟨s.data.map (fun c => if allowedFileChar c then c else '_')⟩

/-- `` `begleitschein_${ankaufsNummer.replace(/[^a-zA-Z0-9-_]/g, '_')}.pdf` `` -/
def pdfFileName (ankaufsNummer : String) : String :=
  "begleitschein_" ++ sanitizeAnkaufsNummer ankaufsNummer ++ ".pdf"

/- ## Asset readiness gate (`waitForAllImagesInContainer`, lines 22-49)

Each `<img>` element in the container at enumeration time is modelled by
the DOM attributes the code reads (`complete`, `naturalWidth`,
`naturalHeight`) together with one bit of environment behaviour: whether
a `load` or `error` event fires on this element after the listeners are
attached. DOM semantics constrain that bit: an image whose load has
already finished (`complete = true`) fires no further load/error event. -/

structure Img where
  complete : Bool
  naturalWidth : Nat
  naturalHeight : Nat
  /-- whether a `load` or `error` event fires on this element after
  enumeration (environment behaviour). -/
  firesLoadOrError : Bool
deriving Repr, DecidableEq

/-- DOM semantics: a `complete` image fires no further load/error event. -/
def domConsistent (img : Img) : Prop :=
  img.complete = true → img.firesLoadOrError = false

instance (img : Img) : Decidable (domConsistent img) := by
  unfold domConsistent; infer_instance

/-- The immediate branch of the loop body (line 34): the image is counted
at enumeration time iff `img.complete && img.naturalWidth !== 0 &&
img.naturalHeight !== 0`. -/
def countsImmediately (img : Img) : Bool :=
  img.complete && !(img.naturalWidth == 0) && !(img.naturalHeight == 0)

/-- Whether `loadedImagesCount` is eventually incremented for this image:
either counted immediately, or `markLoaded` runs because a load/error
event fires on the attached listeners. -/
def eventuallyCounted (img : Img) : Bool :=
  countsImmediately img || img.firesLoadOrError

/-- Total number of increments of `loadedImagesCount` over the whole run. -/
def eventualIncrements (imgs : List Img) : Nat :=
  (imgs.filter eventuallyCounted).length

/-- How many times `resolve()` is invoked by `waitForAllImagesInContainer`
on a container whose enumerated images are `imgs`: once immediately when
the enumeration is empty (line 28); otherwise once per increment of
`loadedImagesCount` at which the count reaches `totalImages` (the guard
`loadedImagesCount === totalImages` checked after the k-th increment,
i.e. at count k+1 for k ranging over the increments that happen). -/
def resolveCalls (imgs : List Img) : Nat :=
  if imgs.length = 0 then 1
  else ((List.range (eventualIncrements imgs)).filter
        (fun k => k + 1 = imgs.length)).length

/- ## Publish coordinator (`generateAndUploadPdf`)

The coordinator awaits a strictly sequential chain of effectful steps
(html2pdf rendering, storage upload, public-URL lookup, DB update, toast).
The environment fixes the outcome of each awaited step; the coordinator is
then a pure function of the environment, its arguments and the current
`pdfUploadStatus` state. -/

/-- Outcomes of the effectful steps of one publish attempt.
`now` is `new Date().toISOString()`; `renderOutcome` is the html2pdf /
jsPDF rendering step, yielding the blob size or throwing;
`uploadError` / `dbError` are the `error` fields of the Supabase
responses; `publicUrl` is `publicUrlData?.publicUrl`. -/
structure Env where
  now : String
  renderOutcome : Except String Nat
  uploadError : Option String
  publicUrl : Option String
  dbError : Option String
deriving Repr

/-- Calls made to the external sinks during one invocation. -/
structure SinkLog where
  uploads : Nat
  uploadFileName : Option String
  dbUpdates : Nat
  dbUrl : Option String
  toasts : Nat
deriving Repr, DecidableEq

def emptyLog : SinkLog :=
  { uploads := 0, uploadFileName := none, dbUpdates := 0, dbUrl := none,
    toasts := 0 }

/-- State at the exit of the `try` block (normal or thrown):
`result` is the returned URL or the thrown error message;
`tempContainerSet` is whether the local variable `tempContainer` is still
non-null; `containerInDom` is whether the staging container is still
attached to `document.body`; `dataAfter` is the (possibly mutated)
`confirmationData` object. -/
structure TryOutcome where
  result : Except String String
  log : SinkLog
  tempContainerSet : Bool
  containerInDom : Bool
  dataAfter : ConfirmationData
deriving Repr

/-- Step 4 of the `try` block: `if (!confirmationData.submissionDate)
confirmationData.submissionDate = new Date().toISOString();` — an
in-place mutation of the caller's object when `submissionDate` is
JS-falsy (absent or the empty string). -/
def withDefaultSubmissionDate (env : Env) (cd0 : ConfirmationData) :
    ConfirmationData :=
  if truthyStr cd0.submissionDate then cd0
  else { cd0 with submissionDate := some env.now }

/-- The `try` block of `generateAndUploadPdf` (usePdfUpload.js lines
98-223): create the off-screen container, default `submissionDate`,
assemble markup, attach the container, await CSS/image readiness, render
the blob, detach the container, upload, resolve the public URL, update
the DB row, and set the success status. Each `throw` is an
`Except.error` carrying the thrown message. -/
def tryBody (env : Env) (cd0 : ConfirmationData) (ankaufsNummer : String) :
    TryOutcome :=
  -- step 4: `if (!confirmationData.submissionDate) confirmationData.submissionDate = new Date().toISOString()`
  let cd := withDefaultSubmissionDate env cd0
  -- steps 5-8 build strings (pure); step 9 appends the container to the DOM;
  -- steps 10-12 await CSS, images and the html2pdf blob
  match env.renderOutcome with
  | .error e =>
      { result := .error e, log := emptyLog, tempContainerSet := true,
        containerInDom := true, dataAfter := cd }
  | .ok _blobSize =>
      -- step 13: remove the container, `tempContainer = null`
      -- step 15: upload to bucket 'lieferschein'
      let log1 : SinkLog :=
        { emptyLog with uploads := 1,
                        uploadFileName := some (pdfFileName ankaufsNummer) }
      match env.uploadError with
      | some e =>
          { result := .error e, log := log1, tempContainerSet := false,
            containerInDom := false, dataAfter := cd }
      | none =>
          -- step 16: `publicUrlData?.publicUrl`, `if (!publicPdfUrl) throw`
          match env.publicUrl with
          | none =>
              { result := .error "usePdfUpload: Konnte keine öffentliche URL für das PDF erhalten.",
                log := log1, tempContainerSet := false,
                containerInDom := false, dataAfter := cd }
          | some u =>
              if u = "" then
                { result := .error "usePdfUpload: Konnte keine öffentliche URL für das PDF erhalten.",
                  log := log1, tempContainerSet := false,
                  containerInDom := false, dataAfter := cd }
              else
                -- step 17: update `ankauf_requests` row keyed by `ankaufs_nummer`
                let log2 : SinkLog :=
                  { log1 with dbUpdates := 1, dbUrl := some u }
                match env.dbError with
                | some e =>
                    { result := .error e, log := log2,
                      tempContainerSet := false, containerInDom := false,
                      dataAfter := cd }
                | none =>
                    -- step 18: success status set inside the try, URL returned
                    { result := .ok u, log := log2, tempContainerSet := false,
                      containerInDom := false, dataAfter := cd }

/-- `err.message || 'Unbekannter Fehler beim PDF-Upload.'` -/
def normalizeErrMsg (e : String) : String :=
  if e = "" then "Unbekannter Fehler beim PDF-Upload." else e

/-- Result of one full invocation of `generateAndUploadPdf`:
the resolved value (`none` for JS `null` or `undefined`), the final
`pdfUploadStatus`, the sink calls, whether the staging container is
still in the live document at return, and the caller-visible
`confirmationData` object afterwards. -/
structure PublishOutcome where
  ret : Option String
  status : PublishStatus
  log : SinkLog
  containerInDom : Bool
  dataAfter : Option ConfirmationData
deriving Repr, DecidableEq

namespace Html2pdfVariant

/-- `generateAndUploadPdf` of the html2pdf variant (usePdfUpload.js lines
67-246): validation, the two deduplication checks, the `try` block, the
`catch` handler (failed status + toast + `return null`) and the `finally`
container cleanup. On success it returns the public URL (line 223). -/
def generateAndUploadPdf (env : Env)
    (confirmationData : Option ConfirmationData)
    (ankaufsNummer : Option String) (_qrCodeDataURL : Option String)
    (pdfUploadStatus : PublishStatus) : PublishOutcome :=
  -- step 1: `if (!confirmationData || !ankaufsNummer)`
  if !confirmationData.isSome || !truthyStr ankaufsNummer then
    { ret := none
      status := { pdfUploadStatus with
                    error := some "Fehlende Daten für PDF-Generierung." }
      log := emptyLog, containerInDom := false,
      dataAfter := confirmationData }
  -- step 2: dedup while uploading
  else if pdfUploadStatus.uploading then
    { ret := pdfUploadStatus.url, status := pdfUploadStatus,
      log := emptyLog, containerInDom := false,
      dataAfter := confirmationData }
  -- step 2: dedup after success with truthy url
  else if pdfUploadStatus.success && truthyStr pdfUploadStatus.url then
    { ret := pdfUploadStatus.url, status := pdfUploadStatus,
      log := emptyLog, containerInDom := false,
      dataAfter := confirmationData }
  else
    match confirmationData with
    | none =>
        -- unreachable: `confirmationData.isSome` holds here; JS would have
        -- returned in step 1. Mirror the validation branch.
        { ret := none
          status := { pdfUploadStatus with
                        error := some "Fehlende Daten für PDF-Generierung." }
          log := emptyLog, containerInDom := false, dataAfter := none }
    | some cd =>
        let t := tryBody env cd (ankaufsNummer.getD "")
        -- `finally`: `if (tempContainer && document.body.contains(tempContainer)) removeChild`
        let domAfter := if t.tempContainerSet && t.containerInDom then false
                        else t.containerInDom
        match t.result with
        | .ok url =>
            { ret := some url
              status := { uploading := false, success := true, error := none,
                          url := some url }
              log := t.log, containerInDom := domAfter,
              dataAfter := some t.dataAfter }
        | .error e =>
            { ret := none
              status := { uploading := false, success := false,
                          error := some (normalizeErrMsg e), url := none }
              log := { t.log with toasts := t.log.toasts + 1 }
              containerInDom := domAfter, dataAfter := some t.dataAfter }

end Html2pdfVariant

namespace JsPdfVariant

/-- `generateAndUploadPdf` of the jsPDF variant (usePdfUpload.js lines
316-475). Identical control flow, but the success value is produced by
`resolve(publicPdfUrl)` inside the awaited `doc.html` callback promise
(line 448); the outer function discards that value — the `try` block ends
without a `return`, so on success the async function resolves with
`undefined` (modelled as `none`) even though the success status carries
the URL. -/
def generateAndUploadPdf (env : Env)
    (confirmationData : Option ConfirmationData)
    (ankaufsNummer : Option String) (_qrCodeDataURL : Option String)
    (pdfUploadStatus : PublishStatus) : PublishOutcome :=
  if !confirmationData.isSome || !truthyStr ankaufsNummer then
    { ret := none
      status := { pdfUploadStatus with
                    error := some "Fehlende Daten für PDF-Generierung." }
      log := emptyLog, containerInDom := false,
      dataAfter := confirmationData }
  else if pdfUploadStatus.uploading then
    { ret := pdfUploadStatus.url, status := pdfUploadStatus,
      log := emptyLog, containerInDom := false,
      dataAfter := confirmationData }
  else if pdfUploadStatus.success && truthyStr pdfUploadStatus.url then
    { ret := pdfUploadStatus.url, status := pdfUploadStatus,
      log := emptyLog, containerInDom := false,
      dataAfter := confirmationData }
  else
    match confirmationData with
    | none =>
        { ret := none
          status := { pdfUploadStatus with
                        error := some "Fehlende Daten für PDF-Generierung." }
          log := emptyLog, containerInDom := false, dataAfter := none }
    | some cd =>
        let t := tryBody env cd (ankaufsNummer.getD "")
        let domAfter := if t.tempContainerSet && t.containerInDom then false
                        else t.containerInDom
        match t.result with
        | .ok url =>
            -- the inner promise resolved with `url`, but the `try` block
            -- falls through without returning it
            { ret := none
              status := { uploading := false, success := true, error := none,
                          url := some url }
              log := t.log, containerInDom := domAfter,
              dataAfter := some t.dataAfter }
        | .error e =>
            { ret := none
              status := { uploading := false, success := false,
                          error := some (normalizeErrMsg e), url := none }
              log := { t.log with toasts := t.log.toasts + 1 }
              containerInDom := domAfter, dataAfter := some t.dataAfter }

end JsPdfVariant

/- ## Template assembler (`generatePurchaseConfirmationHTML`,
src/lib/pdfGenerator.jsx lines 22-66)

The collaborator calls `getPage1Content(data, ankaufsNummer,
formattedDate)`, `getPage2Content(data)` and `getPdfStyles()` live in
modules outside the embedded core (pdfContentGenerator / pdfStyles); for
one fixed `data` their results are fixed strings, so they enter the model
as opaque string inputs. `new Date(submissionDate).getTime()` is likewise
abstracted to its numeric result `epochMillis`. -/

structure GenInput where
  /-- `data.ankaufsNummer` (may be absent or empty, i.e. JS-falsy). -/
  providedAnkaufsNummer : Option String
  /-- `new Date(data.submissionDate).getTime()`. -/
  epochMillis : Nat
  /-- result of `getPage1Content(data, ankaufsNummer, formattedDate)`. -/
  page1 : String
  /-- result of `getPage2Content(data)`. -/
  page2 : String
  /-- result of `getPdfStyles()`. -/
  styles : String
deriving Repr, DecidableEq

/-- `providedAnkaufsNummer || 'BR-' +
new Date(submissionDate).getTime().toString().slice(-8)`  (lines 24-26). -/
def deriveAnkaufsNummer (provided : Option String) (epochMillis : Nat) :
    String :=
  if truthyStr provided then provided.getD ""
  else "BR-" ++ (toString epochMillis).takeRight 8

/-- The template literal assigned to `bodyContent` (lines 35-45). -/
def assembledBodyContent (inp : GenInput) : String :=
  "\n    <div class=\"pdf-container\">\n      <div class=\"pdf-page pdf-page-1\">\n        "
  ++ inp.page1
  ++ "\n      </div>\n      <div class=\"page-break\"></div>\n      <div class=\"pdf-page pdf-page-2\">\n        "
  ++ inp.page2
  ++ "\n      </div>\n    </div>\n  "

/-- `generatePurchaseConfirmationHTML(data, outputType)`: returns the
body-only fragment when `outputType === 'bodyContent'`, otherwise the
full `<!DOCTYPE html>` document wrapping the same `bodyContent` in a
shell with embedded styles and a `<title>` carrying the identifier. -/
def generatePurchaseConfirmationHTML (inp : GenInput)
    (outputType : String) : String :=
  let ankaufsNummer :=
    deriveAnkaufsNummer inp.providedAnkaufsNummer inp.epochMillis
  let bodyContent := assembledBodyContent inp
  if outputType = "bodyContent" then bodyContent
  else
    "\n    <!DOCTYPE html>\n    <html lang=\"de\">\n      <head>\n        <meta charset=\"UTF-8\">\n        <title>Begleitschein - "
    ++ ankaufsNummer
    ++ "</title>\n        <style>\n          "
    ++ inp.styles
    ++ "\n        </style>\n      </head>\n      <body>\n        "
    ++ bodyContent
    ++ "\n      </body>\n    </html>\n  "

/- ## Helper lemmas -/

/-- The character class of the spec's sanitization rule, following the
spec's words: "replace every character outside `[A-Za-z0-9-_]`". -/
def specFileChar (c : Char) : Prop :=
  ('A' ≤ c ∧ c ≤ 'Z') ∨ ('a' ≤ c ∧ c ≤ 'z') ∨ ('0' ≤ c ∧ c ≤ '9')
    ∨ c = '-' ∨ c = '_'

instance (c : Char) : Decidable (specFileChar c) := by
  unfold specFileChar; infer_instance

theorem allowedFileChar_iff (c : Char) :
    allowedFileChar c = true ↔ specFileChar c := by
  simp only [allowedFileChar, specFileChar, Bool.or_eq_true, Bool.and_eq_true,
    decide_eq_true_eq, beq_iff_eq]
  tauto

theorem sanitizeChar_eq (c : Char) :
    (if allowedFileChar c then c else '_')
      = (if specFileChar c then c else '_') := by
  by_cases h : specFileChar c
  · rw [if_pos ((allowedFileChar_iff c).mpr h), if_pos h]
  · rw [if_neg (fun hb => h ((allowedFileChar_iff c).mp hb)), if_neg h]

theorem sanitizeAnkaufsNummer_data (s : String) :
    (sanitizeAnkaufsNummer s).data
      = s.data.map (fun c => if specFileChar c then c else '_') := by
  show s.data.map (fun c => if allowedFileChar c then c else '_')
        = s.data.map (fun c => if specFileChar c then c else '_')
  rw [funext sanitizeChar_eq]

theorem filter_range_length_eq_zero (n L : Nat) (h : n < L) :
    ((List.range n).filter (fun k => k + 1 = L)).length = 0 := by
  rw [List.filter_eq_nil_iff.mpr, List.length_nil]
  intro a ha
  have : a < n := List.mem_range.mp ha
  simp only [decide_eq_true_eq]
  omega

theorem filter_range_length_eq_one (L : Nat) (h : 1 ≤ L) :
    ((List.range L).filter (fun k => k + 1 = L)).length = 1 := by
  obtain ⟨m, rfl⟩ : ∃ m, L = m + 1 := ⟨L - 1, by omega⟩
  rw [List.range_succ, List.filter_append, List.length_append,
      filter_range_length_eq_zero m (m + 1) (by omega)]
  simp

/- ## C7: filename sanitization -/

/-- C7: for every order identifier, the generated filename is
`begleitschein_` ++ (the identifier with every character outside
`[A-Za-z0-9-_]` replaced by `_`) ++ `.pdf`; in particular `"BR/12 34"`
maps to stem `"BR_12_34"`, and an identifier made only of allowed
characters is used unchanged. -/
theorem filename_sanitization :
    (∀ id : String, (pdfFileName id).data =
        "begleitschein_".data
          ++ id.data.map (fun c => if specFileChar c then c else '_')
          ++ ".pdf".data)
    ∧ pdfFileName "BR/12 34" = "begleitschein_BR_12_34.pdf"
    ∧ (∀ id : String, (∀ c ∈ id.data, specFileChar c) →
        pdfFileName id = "begleitschein_" ++ id ++ ".pdf") := by
  have hdata : ∀ id : String, (pdfFileName id).data =
      "begleitschein_".data
        ++ id.data.map (fun c => if specFileChar c then c else '_')
        ++ ".pdf".data := by
    intro id
    simp only [pdfFileName, String.data_append, sanitizeAnkaufsNummer_data]
  refine ⟨hdata, by decide, ?_⟩
  intro id h
  apply String.ext
  rw [hdata id]
  simp only [String.data_append]
  congr 1
  congr 1
  calc id.data.map (fun c => if specFileChar c then c else '_')
      = id.data.map (fun c => c) :=
        List.map_congr_left (fun a ha => if_pos (h a ha))
    _ = id.data := List.map_id' id.data

/-- C7 witness: an identifier of allowed characters is used unchanged;
evaluated at `"BR-1"`. -/
theorem filename_sanitization_witness :
    pdfFileName "BR-1" = "begleitschein_BR-1.pdf" :=
  filename_sanitization.2.2 "BR-1" (by decide)

/- ## C8: fragment mode is a contiguous substring of full-document mode -/

/-- C8: for every input (data record, identifiers, page contents,
styles), the fragment-mode output (`outputType = 'bodyContent'`) is a
contiguous substring of the full-document-mode output
(`outputType = 'fullDocument'`): the full document equals a shell prefix,
then exactly the fragment block, then a shell suffix; moreover the shell
carries a `<title>` containing the derived identifier, and embeds the
style rules. -/
theorem fragment_substring_of_fullDocument (inp : GenInput) :
    (∃ pre post,
        generatePurchaseConfirmationHTML inp "fullDocument"
          = pre ++ generatePurchaseConfirmationHTML inp "bodyContent"
              ++ post)
    ∧ (∃ q r,
        generatePurchaseConfirmationHTML inp "fullDocument"
          = q ++ ("<title>Begleitschein - "
              ++ deriveAnkaufsNummer inp.providedAnkaufsNummer inp.epochMillis
              ++ "</title>") ++ r)
    ∧ (∃ q r,
        generatePurchaseConfirmationHTML inp "fullDocument"
          = q ++ inp.styles ++ r) := by
  refine ⟨?_, ?_, ?_⟩
  · refine ⟨"\n    <!DOCTYPE html>\n    <html lang=\"de\">\n      <head>\n        <meta charset=\"UTF-8\">\n        <title>Begleitschein - "
        ++ deriveAnkaufsNummer inp.providedAnkaufsNummer inp.epochMillis
        ++ "</title>\n        <style>\n          "
        ++ inp.styles
        ++ "\n        </style>\n      </head>\n      <body>\n        ",
      "\n      </body>\n    </html>\n  ", ?_⟩
    simp [generatePurchaseConfirmationHTML, String.append_assoc]
  · refine ⟨"\n    <!DOCTYPE html>\n    <html lang=\"de\">\n      <head>\n        <meta charset=\"UTF-8\">\n        ",
      "\n        <style>\n          "
        ++ inp.styles
        ++ "\n        </style>\n      </head>\n      <body>\n        "
        ++ assembledBodyContent inp
        ++ "\n      </body>\n    </html>\n  ", ?_⟩
    have e1 : ("\n    <!DOCTYPE html>\n    <html lang=\"de\">\n      <head>\n        <meta charset=\"UTF-8\">\n        <title>Begleitschein - " : String)
        = "\n    <!DOCTYPE html>\n    <html lang=\"de\">\n      <head>\n        <meta charset=\"UTF-8\">\n        "
          ++ "<title>Begleitschein - " := by decide
    have e2 : ("</title>\n        <style>\n          " : String)
        = "</title>" ++ "\n        <style>\n          " := by decide
    simp only [generatePurchaseConfirmationHTML]
    rw [if_neg (by decide), e1, e2]
    simp only [String.append_assoc]
  · refine ⟨"\n    <!DOCTYPE html>\n    <html lang=\"de\">\n      <head>\n        <meta charset=\"UTF-8\">\n        <title>Begleitschein - "
        ++ deriveAnkaufsNummer inp.providedAnkaufsNummer inp.epochMillis
        ++ "</title>\n        <style>\n          ",
      "\n        </style>\n      </head>\n      <body>\n        "
        ++ assembledBodyContent inp
        ++ "\n      </body>\n    </html>\n  ", ?_⟩
    simp [generatePurchaseConfirmationHTML, String.append_assoc]

/- ## C9: asset readiness gate -/

theorem eventualIncrements_le (imgs : List Img) :
    eventualIncrements imgs ≤ imgs.length :=
  List.length_filter_le _ _

/-- C9 counterexample: an image that is already in the
completed-but-zero-dimension (broken) state at enumeration time — which
under DOM semantics fires no further load/error event — prevents the gate
from ever resolving: `resolve()` is called zero times, contradicting the
claim that such an image "counts toward readiness and never prevents
resolution". -/
theorem readiness_gate_broken_complete_blocks :
    domConsistent
      { complete := true, naturalWidth := 0, naturalHeight := 0,
        firesLoadOrError := false }
    ∧ resolveCalls
        [{ complete := true, naturalWidth := 0, naturalHeight := 0,
           firesLoadOrError := false }] = 0 := by
  constructor
  · intro _; rfl
  · decide

/-- C9 (amended): `waitForAllImagesInContainer` resolves immediately
(exactly once) when the container holds zero images; it never resolves
more than once; for a non-empty enumeration it resolves exactly once iff
every enumerated image is eventually counted — i.e. either already
complete with non-zero dimensions at enumeration, or a load/error event
later fires on it (so a failed image load that fires its error event
counts toward readiness); but an image already complete with zero
dimensions at enumeration time is never counted (no event fires under
DOM semantics) and its presence prevents resolution entirely. -/
theorem readiness_gate_resolution :
    resolveCalls [] = 1
    ∧ (∀ imgs : List Img, resolveCalls imgs ≤ 1)
    ∧ (∀ imgs : List Img, imgs ≠ [] →
        (resolveCalls imgs = 1 ↔ ∀ i ∈ imgs, eventuallyCounted i = true))
    ∧ (∀ img : Img, img.complete = false → img.firesLoadOrError = true →
        eventuallyCounted img = true)
    ∧ (∀ img : Img, domConsistent img → img.complete = true →
        img.naturalWidth = 0 →
        ∀ imgs : List Img, img ∈ imgs → resolveCalls imgs = 0) := by
  have hone : ∀ imgs : List Img, imgs ≠ [] →
      (∀ i ∈ imgs, eventuallyCounted i = true) → resolveCalls imgs = 1 := by
    intro imgs hne hall
    have hlen : 0 < imgs.length := List.length_pos.mpr hne
    have hinc : eventualIncrements imgs = imgs.length :=
      List.filter_length_eq_length.mpr hall
    rw [resolveCalls, if_neg (by omega), hinc,
        filter_range_length_eq_one imgs.length (by omega)]
  have hzero : ∀ imgs : List Img, (∃ i ∈ imgs, eventuallyCounted i = false) →
      resolveCalls imgs = 0 := by
    intro imgs ⟨i, hi, hci⟩
    have hne : imgs.length ≠ 0 :=
      Nat.pos_iff_ne_zero.mp (List.length_pos.mpr (by rintro rfl; cases hi))
    have hlt : eventualIncrements imgs < imgs.length := by
      rcases Nat.lt_or_ge (eventualIncrements imgs) imgs.length with h | h
      · exact h
      · exfalso
        have heq : eventualIncrements imgs = imgs.length :=
          Nat.le_antisymm (eventualIncrements_le imgs) h
        have := List.filter_length_eq_length.mp heq i hi
        rw [hci] at this; exact Bool.false_ne_true this
    rw [resolveCalls, if_neg hne]
    exact filter_range_length_eq_zero _ _ hlt
  refine ⟨by decide, ?_, ?_, ?_, ?_⟩
  · intro imgs
    by_cases hne : imgs = []
    · subst hne; decide
    · by_cases hall : ∀ i ∈ imgs, eventuallyCounted i = true
      · rw [hone imgs hne hall]
      · push_neg at hall
        obtain ⟨i, hi, hci⟩ := hall
        rw [hzero imgs ⟨i, hi, Bool.not_eq_true _ ▸ Bool.eq_false_iff.mpr hci⟩]
        omega
  · intro imgs hne
    constructor
    · intro h1
      by_contra hall
      push_neg at hall
      obtain ⟨i, hi, hci⟩ := hall
      rw [hzero imgs ⟨i, hi, Bool.eq_false_iff.mpr hci⟩] at h1
      exact absurd h1 (by omega)
    · exact hone imgs hne
  · intro img hc hf
    simp [eventuallyCounted, hf]
  · intro img hdom hc hw imgs hmem
    apply hzero
    refine ⟨img, hmem, ?_⟩
    simp [eventuallyCounted, countsImmediately, hc, hw, hdom hc]

/-- C9 witness: a single image that fails to load (its error event fires)
still lets the gate resolve exactly once. -/
theorem readiness_gate_resolution_witness :
    resolveCalls
      [{ complete := false, naturalWidth := 0, naturalHeight := 0,
         firesLoadOrError := true }] = 1 :=
  (readiness_gate_resolution.2.2.1 _ (by decide)).mpr (by decide)

/- ## Branch-shape lemmas for the coordinator -/

theorem tryBody_render_error (env : Env) (c : ConfirmationData) (s : String)
    (e : String) (he : env.renderOutcome = Except.error e) :
    tryBody env c s =
      { result := Except.error e, log := emptyLog, tempContainerSet := true,
        containerInDom := true,
        dataAfter := withDefaultSubmissionDate env c } := by
  unfold tryBody
  rw [he]

theorem tryBody_upload_error (env : Env) (c : ConfirmationData) (s : String)
    (n : Nat) (hn : env.renderOutcome = Except.ok n) (e : String)
    (he : env.uploadError = some e) :
    tryBody env c s =
      { result := Except.error e
        log := { uploads := 1, uploadFileName := some (pdfFileName s),
                 dbUpdates := 0, dbUrl := none, toasts := 0 }
        tempContainerSet := false, containerInDom := false,
        dataAfter := withDefaultSubmissionDate env c } := by
  unfold tryBody
  rw [hn, he]
  simp [emptyLog]

theorem tryBody_no_public_url (env : Env) (c : ConfirmationData) (s : String)
    (n : Nat) (hn : env.renderOutcome = Except.ok n)
    (hu : env.uploadError = none) (hurl : truthyStr env.publicUrl = false) :
    tryBody env c s =
      { result := Except.error
          "usePdfUpload: Konnte keine öffentliche URL für das PDF erhalten."
        log := { uploads := 1, uploadFileName := some (pdfFileName s),
                 dbUpdates := 0, dbUrl := none, toasts := 0 }
        tempContainerSet := false, containerInDom := false,
        dataAfter := withDefaultSubmissionDate env c } := by
  unfold tryBody
  rw [hn, hu]
  cases hpu : env.publicUrl with
  | none => simp [emptyLog]
  | some u =>
      rw [hpu] at hurl
      have hu0 : u = "" := by simpa [truthyStr] using hurl
      subst hu0
      simp [emptyLog]

theorem tryBody_db_error (env : Env) (c : ConfirmationData) (s : String)
    (n : Nat) (hn : env.renderOutcome = Except.ok n)
    (hu : env.uploadError = none) (u : String)
    (hpu : env.publicUrl = some u) (hne : u ≠ "") (e : String)
    (hdb : env.dbError = some e) :
    tryBody env c s =
      { result := Except.error e
        log := { uploads := 1, uploadFileName := some (pdfFileName s),
                 dbUpdates := 1, dbUrl := some u, toasts := 0 }
        tempContainerSet := false, containerInDom := false,
        dataAfter := withDefaultSubmissionDate env c } := by
  unfold tryBody
  rw [hn, hu, hpu]
  simp [emptyLog, hne, hdb]

theorem tryBody_success (env : Env) (c : ConfirmationData) (s : String)
    (n : Nat) (hn : env.renderOutcome = Except.ok n)
    (hu : env.uploadError = none) (u : String)
    (hpu : env.publicUrl = some u) (hne : u ≠ "")
    (hdb : env.dbError = none) :
    tryBody env c s =
      { result := Except.ok u
        log := { uploads := 1, uploadFileName := some (pdfFileName s),
                 dbUpdates := 1, dbUrl := some u, toasts := 0 }
        tempContainerSet := false, containerInDom := false,
        dataAfter := withDefaultSubmissionDate env c } := by
  unfold tryBody
  rw [hn, hu, hpu]
  simp [emptyLog, hne, hdb]

/-- The `finally` cleanup always leaves the container detached, whatever
the `try` block did. -/
theorem tryBody_finally_detaches (env : Env) (c : ConfirmationData)
    (s : String) :
    (if (tryBody env c s).tempContainerSet
          && (tryBody env c s).containerInDom then false
     else (tryBody env c s).containerInDom) = false := by
  unfold tryBody
  cases env.renderOutcome with
  | error e => rfl
  | ok n =>
      cases env.uploadError with
      | some e => rfl
      | none =>
          cases env.publicUrl with
          | none => rfl
          | some u =>
              by_cases hu : u = ""
              · simp [hu]
              · cases hdb : env.dbError with
                | some e => simp [hu, hdb]
                | none => simp [hu, hdb]

theorem publish_validation_shape (env : Env)
    (confirmationData : Option ConfirmationData)
    (nr qr : Option String) (st : PublishStatus)
    (h : confirmationData = none ∨ truthyStr nr = false) :
    Html2pdfVariant.generateAndUploadPdf env confirmationData nr qr st =
      { ret := none
        status := { st with
                      error := some "Fehlende Daten für PDF-Generierung." }
        log := emptyLog, containerInDom := false,
        dataAfter := confirmationData } := by
  unfold Html2pdfVariant.generateAndUploadPdf
  rcases h with h | h
  · subst h; rfl
  · rw [h]
    cases confirmationData with
    | none => rfl
    | some c => rfl

theorem publish_uploading_shape (env : Env) (c : ConfirmationData)
    (nr qr : Option String) (st : PublishStatus)
    (hnr : truthyStr nr = true) (hu : st.uploading = true) :
    Html2pdfVariant.generateAndUploadPdf env (some c) nr qr st =
      { ret := st.url, status := st, log := emptyLog,
        containerInDom := false, dataAfter := some c } := by
  unfold Html2pdfVariant.generateAndUploadPdf
  rw [hnr, hu]
  rfl

theorem publish_dedup_success_shape (env : Env) (c : ConfirmationData)
    (nr qr : Option String) (st : PublishStatus)
    (hnr : truthyStr nr = true) (hu : st.uploading = false)
    (hs : (st.success && truthyStr st.url) = true) :
    Html2pdfVariant.generateAndUploadPdf env (some c) nr qr st =
      { ret := st.url, status := st, log := emptyLog,
        containerInDom := false, dataAfter := some c } := by
  unfold Html2pdfVariant.generateAndUploadPdf
  rw [hnr, hu, hs]
  rfl

theorem publish_run_ok (env : Env) (c : ConfirmationData)
    (nr qr : Option String) (st : PublishStatus)
    (hnr : truthyStr nr = true) (hu : st.uploading = false)
    (hs : (st.success && truthyStr st.url) = false) (u : String)
    (ht : (tryBody env c (nr.getD "")).result = Except.ok u) :
    Html2pdfVariant.generateAndUploadPdf env (some c) nr qr st =
      { ret := some u
        status := { uploading := false, success := true, error := none,
                    url := some u }
        log := (tryBody env c (nr.getD "")).log
        containerInDom := false
        dataAfter := some (tryBody env c (nr.getD "")).dataAfter } := by
  have hdet := tryBody_finally_detaches env c (nr.getD "")
  unfold Html2pdfVariant.generateAndUploadPdf
  simp only [hnr, hu, hs, ht, hdet]
  simp [hnr, hu, hs, ht, hdet]

theorem publish_run_error (env : Env) (c : ConfirmationData)
    (nr qr : Option String) (st : PublishStatus)
    (hnr : truthyStr nr = true) (hu : st.uploading = false)
    (hs : (st.success && truthyStr st.url) = false) (e : String)
    (ht : (tryBody env c (nr.getD "")).result = Except.error e) :
    Html2pdfVariant.generateAndUploadPdf env (some c) nr qr st =
      { ret := none
        status := { uploading := false, success := false,
                    error := some (normalizeErrMsg e), url := none }
        log := { (tryBody env c (nr.getD "")).log with
                   toasts := (tryBody env c (nr.getD "")).log.toasts + 1 }
        containerInDom := false
        dataAfter := some (tryBody env c (nr.getD "")).dataAfter } := by
  have hdet := tryBody_finally_detaches env c (nr.getD "")
  unfold Html2pdfVariant.generateAndUploadPdf
  simp only [hnr, hu, hs, ht, hdet]
  simp [hnr, hu, hs, ht, hdet]

theorem tryBody_log_toasts (env : Env) (c : ConfirmationData) (s : String) :
    (tryBody env c s).log.toasts = 0 := by
  unfold tryBody
  cases env.renderOutcome with
  | error e => rfl
  | ok n =>
      cases env.uploadError with
      | some e => rfl
      | none =>
          cases env.publicUrl with
          | none => rfl
          | some u =>
              by_cases hu : u = ""
              · simp [hu, emptyLog]
              · cases hdb : env.dbError with
                | some e => simp [hu, hdb, emptyLog]
                | none => simp [hu, hdb, emptyLog]

theorem tryBody_dataAfter (env : Env) (c : ConfirmationData) (s : String) :
    (tryBody env c s).dataAfter = withDefaultSubmissionDate env c := by
  unfold tryBody
  cases env.renderOutcome with
  | error e => rfl
  | ok n =>
      cases env.uploadError with
      | some e => rfl
      | none =>
          cases env.publicUrl with
          | none => rfl
          | some u =>
              by_cases hu : u = ""
              · simp [hu]
              · cases hdb : env.dbError with
                | some e => simp [hu, hdb]
                | none => simp [hu, hdb]

/- ## C2: validation failure has no side effects -/

/-- C2: for every call of `generateAndUploadPdf` where `confirmationData`
or the order identifier is missing (JS-falsy), the call returns null,
performs zero calls to the storage sink and the record sink (and no
toast), and leaves the status unchanged except for setting the error
field. -/
theorem validation_failure_no_side_effects (env : Env)
    (confirmationData : Option ConfirmationData)
    (nr qr : Option String) (st : PublishStatus)
    (h : confirmationData = none ∨ truthyStr nr = false) :
    (Html2pdfVariant.generateAndUploadPdf env confirmationData nr qr st).ret
        = none
    ∧ (Html2pdfVariant.generateAndUploadPdf env confirmationData nr qr
        st).log = emptyLog
    ∧ (Html2pdfVariant.generateAndUploadPdf env confirmationData nr qr
        st).status.uploading = st.uploading
    ∧ (Html2pdfVariant.generateAndUploadPdf env confirmationData nr qr
        st).status.success = st.success
    ∧ (Html2pdfVariant.generateAndUploadPdf env confirmationData nr qr
        st).status.url = st.url
    ∧ (Html2pdfVariant.generateAndUploadPdf env confirmationData nr qr
        st).status.error = some "Fehlende Daten für PDF-Generierung."
    ∧ (Html2pdfVariant.generateAndUploadPdf env confirmationData nr qr
        st).dataAfter = confirmationData := by
  rw [publish_validation_shape env confirmationData nr qr st h]
  exact ⟨rfl, rfl, rfl, rfl, rfl, rfl, rfl⟩

/-- C2 witness: evaluated at a missing `confirmationData`. -/
theorem validation_failure_no_side_effects_witness :
    (Html2pdfVariant.generateAndUploadPdf
      { now := "2025-06-01T12:00:00.000Z", renderOutcome := Except.ok 3000,
        uploadError := none, publicUrl := some "https://x", dbError := none }
      none (some "BR-12345678") none initialPdfUploadStatus).ret = none :=
  (validation_failure_no_side_effects _ _ _ _ _ (Or.inl rfl)).1

/- ## C6: the staging container is detached on every exit path -/

/-- C6: on every exit path of a publish attempt — success, failure at any
step, or exception inside a step — the off-screen staging container is
detached from the live document before `generateAndUploadPdf` returns; no
execution path leaves it attached. -/
theorem container_detached_on_every_exit (env : Env)
    (confirmationData : Option ConfirmationData)
    (nr qr : Option String) (st : PublishStatus) :
    (Html2pdfVariant.generateAndUploadPdf env confirmationData nr qr
        st).containerInDom = false := by
  by_cases hval : confirmationData = none ∨ truthyStr nr = false
  · rw [publish_validation_shape env confirmationData nr qr st hval]
  · push_neg at hval
    obtain ⟨hcd, hnr⟩ := hval
    obtain ⟨c, rfl⟩ : ∃ c, confirmationData = some c := by
      cases confirmationData with
      | none => exact absurd rfl hcd
      | some c => exact ⟨c, rfl⟩
    have hnr' : truthyStr nr = true := by
      cases h : truthyStr nr with
      | false => exact absurd h hnr
      | true => rfl
    by_cases hu : st.uploading = true
    · rw [publish_uploading_shape env c nr qr st hnr' hu]
    · have hu' : st.uploading = false := by
        cases h : st.uploading with
        | false => rfl
        | true => exact absurd h hu
      by_cases hd : (st.success && truthyStr st.url) = true
      · rw [publish_dedup_success_shape env c nr qr st hnr' hu' hd]
      · have hd' : (st.success && truthyStr st.url) = false := by
          cases h : (st.success && truthyStr st.url) with
          | false => rfl
          | true => exact absurd h hd
        cases ht : (tryBody env c (nr.getD "")).result with
        | ok u => rw [publish_run_ok env c nr qr st hnr' hu' hd' u ht]
        | error e => rw [publish_run_error env c nr qr st hnr' hu' hd' e ht]

/- ## C1: deduplication / idempotence of publish -/

/-- C1: while the status is Uploading, a second call returns the status's
current url with zero sink calls and no state change (at-most-one
in-flight publish); and after a first fully successful call from a
non-deduplicating state, an immediate repeat call with identical
arguments returns the first call's cached url with zero further storage
or persistence calls — one upload and one record update in total across
the two calls. -/
theorem publish_idempotent (env : Env) (c : ConfirmationData)
    (nr qr : Option String) (st : PublishStatus)
    (hnr : truthyStr nr = true)
    (n : Nat) (hrender : env.renderOutcome = Except.ok n)
    (hupl : env.uploadError = none)
    (u : String) (hpu : env.publicUrl = some u) (hne : u ≠ "")
    (hdb : env.dbError = none) :
    (∀ st' : PublishStatus, st'.uploading = true →
      (Html2pdfVariant.generateAndUploadPdf env (some c) nr qr st').ret
          = st'.url
      ∧ (Html2pdfVariant.generateAndUploadPdf env (some c) nr qr st').log
          = emptyLog
      ∧ (Html2pdfVariant.generateAndUploadPdf env (some c) nr qr st').status
          = st')
    ∧ (st.uploading = false → (st.success && truthyStr st.url) = false →
      (Html2pdfVariant.generateAndUploadPdf env (some c) nr qr st).ret
          = some u
      ∧ (Html2pdfVariant.generateAndUploadPdf env (some c) nr qr st).log.uploads
          = 1
      ∧ (Html2pdfVariant.generateAndUploadPdf env (some c) nr qr st).log.dbUpdates
          = 1
      ∧ (Html2pdfVariant.generateAndUploadPdf env (some c) nr qr
          (Html2pdfVariant.generateAndUploadPdf env (some c) nr qr st).status).ret
          = some u
      ∧ (Html2pdfVariant.generateAndUploadPdf env (some c) nr qr
          (Html2pdfVariant.generateAndUploadPdf env (some c) nr qr st).status).log
          = emptyLog
      ∧ (Html2pdfVariant.generateAndUploadPdf env (some c) nr qr
          (Html2pdfVariant.generateAndUploadPdf env (some c) nr qr st).status).status
          = (Html2pdfVariant.generateAndUploadPdf env (some c) nr qr st).status) := by
  have htb := tryBody_success env c (nr.getD "") n hrender hupl u hpu hne hdb
  constructor
  · intro st' h
    rw [publish_uploading_shape env c nr qr st' hnr h]
    exact ⟨rfl, rfl, rfl⟩
  · intro hu hs
    have ho1 := publish_run_ok env c nr qr st hnr hu hs u (by rw [htb])
    have hsucc : truthyStr (some u) = true := by
      simp [truthyStr, hne]
    have ho2 := publish_dedup_success_shape env c nr qr
      { uploading := false, success := true, error := none, url := some u }
      hnr rfl (by simp [hsucc])
    rw [ho1, htb]
    exact ⟨rfl, rfl, rfl, by rw [ho2], by rw [ho2], by rw [ho2]⟩

/-- C1 witness: a concrete fully successful environment; the in-flight
dedup branch and the repeat-after-success branch both return without
further sink calls. -/
theorem publish_idempotent_witness :
    (Html2pdfVariant.generateAndUploadPdf
        { now := "2025-06-01T12:00:00.000Z", renderOutcome := Except.ok 5000,
          uploadError := none, publicUrl := some "https://x/p.pdf",
          dbError := none }
        (some { submissionDate := some "2025-06-01T12:00:00.000Z",
                name := "A. Tester", email := "a@test.de",
                address := "Main St 1" })
        (some "BR-12345678") none initialPdfUploadStatus).log.uploads = 1 :=
  ((publish_idempotent
      { now := "2025-06-01T12:00:00.000Z", renderOutcome := Except.ok 5000,
        uploadError := none, publicUrl := some "https://x/p.pdf",
        dbError := none }
      { submissionDate := some "2025-06-01T12:00:00.000Z",
        name := "A. Tester", email := "a@test.de", address := "Main St 1" }
      (some "BR-12345678") none initialPdfUploadStatus
      (by decide) 5000 rfl rfl "https://x/p.pdf" rfl (by decide) rfl).2
    rfl rfl).2.1

/- ## C5: non-validation failures are caught and reported exactly once -/

/-- C5: every non-validation failure raised inside a pipeline step
(render, upload, address resolution, persistence) is caught at the
coordinator boundary: the call returns null, the final status is
uploading=false, success=false, error=<normalized message>, url=null, and
the toast sink is invoked exactly once; on a successful run the toast
sink is never invoked. The last four conjuncts identify the thrown
message for each failing step. -/
theorem pipeline_failure_caught (env : Env) (c : ConfirmationData)
    (nr qr : Option String) (st : PublishStatus)
    (hnr : truthyStr nr = true) (hu : st.uploading = false)
    (hs : (st.success && truthyStr st.url) = false) :
    (∀ e, (tryBody env c (nr.getD "")).result = Except.error e →
      (Html2pdfVariant.generateAndUploadPdf env (some c) nr qr st).ret = none
      ∧ (Html2pdfVariant.generateAndUploadPdf env (some c) nr qr st).status
          = { uploading := false, success := false,
              error := some (normalizeErrMsg e), url := none }
      ∧ (Html2pdfVariant.generateAndUploadPdf env (some c) nr qr
          st).log.toasts = 1)
    ∧ (∀ u, (tryBody env c (nr.getD "")).result = Except.ok u →
      (Html2pdfVariant.generateAndUploadPdf env (some c) nr qr
          st).log.toasts = 0)
    ∧ (∀ e, env.renderOutcome = Except.error e →
        (tryBody env c (nr.getD "")).result = Except.error e)
    ∧ (∀ n e, env.renderOutcome = Except.ok n → env.uploadError = some e →
        (tryBody env c (nr.getD "")).result = Except.error e)
    ∧ (∀ n, env.renderOutcome = Except.ok n → env.uploadError = none →
        truthyStr env.publicUrl = false →
        (tryBody env c (nr.getD "")).result = Except.error
          "usePdfUpload: Konnte keine öffentliche URL für das PDF erhalten.")
    ∧ (∀ n u e, env.renderOutcome = Except.ok n → env.uploadError = none →
        env.publicUrl = some u → u ≠ "" → env.dbError = some e →
        (tryBody env c (nr.getD "")).result = Except.error e) := by
  refine ⟨?_, ?_, ?_, ?_, ?_, ?_⟩
  · intro e ht
    rw [publish_run_error env c nr qr st hnr hu hs e ht]
    refine ⟨rfl, rfl, ?_⟩
    show (tryBody env c (nr.getD "")).log.toasts + 1 = 1
    rw [tryBody_log_toasts]
  · intro u ht
    rw [publish_run_ok env c nr qr st hnr hu hs u ht]
    show (tryBody env c (nr.getD "")).log.toasts = 0
    rw [tryBody_log_toasts]
  · intro e he
    rw [tryBody_render_error env c (nr.getD "") e he]
  · intro n e hn he
    rw [tryBody_upload_error env c (nr.getD "") n hn e he]
  · intro n hn hupl hurl
    rw [tryBody_no_public_url env c (nr.getD "") n hn hupl hurl]
  · intro n u e hn hupl hpu hne hdb
    rw [tryBody_db_error env c (nr.getD "") n hn hupl u hpu hne e hdb]

/-- C5 witness: a concrete rejected storage upload yields exactly one
toast. -/
theorem pipeline_failure_caught_witness :
    (Html2pdfVariant.generateAndUploadPdf
        { now := "2025-06-01T12:00:00.000Z", renderOutcome := Except.ok 5000,
          uploadError := some "storage rejected", publicUrl := none,
          dbError := none }
        (some { submissionDate := some "2025-06-01T12:00:00.000Z",
                name := "A. Tester", email := "a@test.de",
                address := "Main St 1" })
        (some "BR-12345678") none initialPdfUploadStatus).log.toasts = 1 :=
  ((pipeline_failure_caught
      { now := "2025-06-01T12:00:00.000Z", renderOutcome := Except.ok 5000,
        uploadError := some "storage rejected", publicUrl := none,
        dbError := none }
      { submissionDate := some "2025-06-01T12:00:00.000Z",
        name := "A. Tester", email := "a@test.de", address := "Main St 1" }
      (some "BR-12345678") none initialPdfUploadStatus
      (by decide) rfl rfl).1 "storage rejected" rfl).2.2

/- ## C3: status lifecycle invariant -/

/-- The invariant claimed for `PublishStatus`: the two terminal flags are
never held simultaneously. -/
def statusWellFormed (s : PublishStatus) : Prop :=
  s.success = true → s.error = none

instance (s : PublishStatus) : Decidable (statusWellFormed s) := by
  unfold statusWellFormed; infer_instance

/-- C3 counterexample: from a prior Success status (success=true with a
non-null url), a call with missing `confirmationData` takes the
validation branch, which sets only the error field — the resulting
status holds success=true together with a non-null error, i.e. two
terminal flags simultaneously, refuting the claim as stated. -/
theorem status_two_terminal_flags_after_validation :
    ((Html2pdfVariant.generateAndUploadPdf
        { now := "2025-06-01T12:00:00.000Z", renderOutcome := Except.ok 3000,
          uploadError := none, publicUrl := some "https://x", dbError := none }
        none (some "BR-12345678") none
        { uploading := false, success := true, error := none,
          url := some "https://example.org/p.pdf" }).status.success = true)
    ∧ ((Html2pdfVariant.generateAndUploadPdf
        { now := "2025-06-01T12:00:00.000Z", renderOutcome := Except.ok 3000,
          uploadError := none, publicUrl := some "https://x", dbError := none }
        none (some "BR-12345678") none
        { uploading := false, success := true, error := none,
          url := some "https://example.org/p.pdf" }).status.error
        = some "Fehlende Daten für PDF-Generierung.") := by
  constructor
  · rfl
  · rfl

/-- C3 (amended): the status starts all-false/null; the attempt-start
status is uploading=true with both terminal fields cleared; every attempt
that runs the pipeline ends in exactly one terminal state (success with a
url and no error, or error with a message and no url); and the
two-terminal-flags invariant is preserved by every operation from any
state with success=false, and by every operation with valid arguments
from any well-formed state — but a validation failure invoked from a
prior Success state sets the error field while leaving success=true, so
the invariant does not survive that one operation. -/
theorem status_lifecycle_invariant :
    statusWellFormed initialPdfUploadStatus
    ∧ initialPdfUploadStatus
        = { uploading := false, success := false, error := none, url := none }
    ∧ uploadingStartStatus.uploading = true
    ∧ statusWellFormed uploadingStartStatus
    ∧ (∀ (env : Env) (c : ConfirmationData) (nr qr : Option String)
        (st : PublishStatus), truthyStr nr = true → st.uploading = false →
        (st.success && truthyStr st.url) = false →
        (∃ u, (Html2pdfVariant.generateAndUploadPdf env (some c) nr qr
            st).status
          = { uploading := false, success := true, error := none,
              url := some u })
        ∨ (∃ e, (Html2pdfVariant.generateAndUploadPdf env (some c) nr qr
            st).status
          = { uploading := false, success := false, error := some e,
              url := none }))
    ∧ (∀ (env : Env) (cd : Option ConfirmationData) (nr qr : Option String)
        (st : PublishStatus), st.success = false →
        statusWellFormed
          (Html2pdfVariant.generateAndUploadPdf env cd nr qr st).status)
    ∧ (∀ (env : Env) (c : ConfirmationData) (nr qr : Option String)
        (st : PublishStatus), statusWellFormed st → truthyStr nr = true →
        statusWellFormed
          (Html2pdfVariant.generateAndUploadPdf env (some c) nr qr
            st).status) := by
  refine ⟨fun _ => rfl, rfl, rfl, fun _ => rfl, ?_, ?_, ?_⟩
  · intro env c nr qr st hnr hu hs
    cases ht : (tryBody env c (nr.getD "")).result with
    | ok u =>
        left
        exact ⟨u, by rw [publish_run_ok env c nr qr st hnr hu hs u ht]⟩
    | error e =>
        right
        exact ⟨normalizeErrMsg e,
          by rw [publish_run_error env c nr qr st hnr hu hs e ht]⟩
  · intro env cd nr qr st hst
    by_cases hval : cd = none ∨ truthyStr nr = false
    · rw [publish_validation_shape env cd nr qr st hval]
      intro h'
      dsimp at h'
      rw [hst] at h'
      exact absurd h' Bool.false_ne_true
    · push_neg at hval
      obtain ⟨hcd, hnr⟩ := hval
      obtain ⟨c, rfl⟩ : ∃ c, cd = some c := by
        cases cd with
        | none => exact absurd rfl hcd
        | some c => exact ⟨c, rfl⟩
      have hnr' : truthyStr nr = true := by
        cases h : truthyStr nr with
        | false => exact absurd h hnr
        | true => rfl
      by_cases hu : st.uploading = true
      · rw [publish_uploading_shape env c nr qr st hnr' hu]
        intro h'
        rw [hst] at h'
        exact absurd h' Bool.false_ne_true
      · have hu' : st.uploading = false := by
          cases h : st.uploading with
          | false => rfl
          | true => exact absurd h hu
        have hd' : (st.success && truthyStr st.url) = false := by
          rw [hst]; rfl
        cases ht : (tryBody env c (nr.getD "")).result with
        | ok u =>
            rw [publish_run_ok env c nr qr st hnr' hu' hd' u ht]
            intro _; rfl
        | error e =>
            rw [publish_run_error env c nr qr st hnr' hu' hd' e ht]
            intro h'
            exact absurd h' Bool.false_ne_true
  · intro env c nr qr st hwf hnr
    by_cases hu : st.uploading = true
    · rw [publish_uploading_shape env c nr qr st hnr hu]
      exact hwf
    · have hu' : st.uploading = false := by
        cases h : st.uploading with
        | false => rfl
        | true => exact absurd h hu
      by_cases hd : (st.success && truthyStr st.url) = true
      · rw [publish_dedup_success_shape env c nr qr st hnr hu' hd]
        exact hwf
      · have hd' : (st.success && truthyStr st.url) = false := by
          cases h : (st.success && truthyStr st.url) with
          | false => rfl
          | true => exact absurd h hd
        cases ht : (tryBody env c (nr.getD "")).result with
        | ok u =>
            rw [publish_run_ok env c nr qr st hnr hu' hd' u ht]
            intro _; rfl
        | error e =>
            rw [publish_run_error env c nr qr st hnr hu' hd' e ht]
            intro h'
            exact absurd h' Bool.false_ne_true

/-- C3 witness: the preservation clause evaluated from the initial
(success=false) state at a concrete input. -/
theorem status_lifecycle_invariant_witness :
    statusWellFormed
      (Html2pdfVariant.generateAndUploadPdf
        { now := "2025-06-01T12:00:00.000Z", renderOutcome := Except.ok 3000,
          uploadError := none, publicUrl := some "https://x", dbError := none }
        (some { submissionDate := none, name := "A. Tester",
                email := "a@test.de", address := "Main St 1" })
        (some "BR-12345678") none initialPdfUploadStatus).status :=
  status_lifecycle_invariant.2.2.2.2.2.1
    { now := "2025-06-01T12:00:00.000Z", renderOutcome := Except.ok 3000,
      uploadError := none, publicUrl := some "https://x", dbError := none }
    (some { submissionDate := none, name := "A. Tester",
            email := "a@test.de", address := "Main St 1" })
    (some "BR-12345678") none initialPdfUploadStatus rfl

/- ## C10: the caller's confirmationData object is mutated -/

/-- C10 counterexample: (a) a call whose `submissionDate` is absent but
which hits the in-flight deduplication branch writes nothing into the
caller's object, and (b) a call whose `submissionDate` is present but
empty (`""`) — i.e. present yet JS-falsy — has it overwritten with the
current time, so the object is not left unmodified; both refute the
claim's universal phrasing. -/
theorem submission_date_mutation_counterexample :
    ((Html2pdfVariant.generateAndUploadPdf
        { now := "2025-06-01T12:00:00.000Z", renderOutcome := Except.ok 3000,
          uploadError := none, publicUrl := some "https://x", dbError := none }
        (some { submissionDate := none, name := "N", email := "E",
                address := "A" })
        (some "BR-1") none uploadingStartStatus).dataAfter
      = some { submissionDate := none, name := "N", email := "E",
               address := "A" })
    ∧ ((Html2pdfVariant.generateAndUploadPdf
        { now := "2025-06-01T12:00:00.000Z", renderOutcome := Except.ok 3000,
          uploadError := none, publicUrl := some "https://x", dbError := none }
        (some { submissionDate := some "", name := "N", email := "E",
                address := "A" })
        (some "BR-1") none initialPdfUploadStatus).dataAfter
      = some { submissionDate := some "2025-06-01T12:00:00.000Z",
               name := "N", email := "E", address := "A" })
    ∧ ((Html2pdfVariant.generateAndUploadPdf
        { now := "2025-06-01T12:00:00.000Z", renderOutcome := Except.ok 3000,
          uploadError := none, publicUrl := some "https://x", dbError := none }
        (some { submissionDate := some "", name := "N", email := "E",
                address := "A" })
        (some "BR-1") none initialPdfUploadStatus).dataAfter
      ≠ some { submissionDate := some "", name := "N", email := "E",
               address := "A" }) := by
  refine ⟨rfl, rfl, ?_⟩
  decide

/-- C10 (amended): for every call that proceeds past validation and
deduplication into an attempt, a JS-falsy `submissionDate` (absent or
empty) is overwritten in the caller-supplied object with the current
time ISO string, visibly after the call returns; a present non-empty
`submissionDate` leaves the object unmodified; calls taken over by the
in-flight deduplication branch never write. -/
theorem submission_date_mutation (env : Env) (c : ConfirmationData)
    (nr qr : Option String) (st : PublishStatus)
    (hnr : truthyStr nr = true) (hu : st.uploading = false)
    (hs : (st.success && truthyStr st.url) = false) :
    (truthyStr c.submissionDate = false →
      (Html2pdfVariant.generateAndUploadPdf env (some c) nr qr st).dataAfter
        = some { c with submissionDate := some env.now })
    ∧ (truthyStr c.submissionDate = true →
      (Html2pdfVariant.generateAndUploadPdf env (some c) nr qr st).dataAfter
        = some c)
    ∧ (∀ st' : PublishStatus, st'.uploading = true →
      (Html2pdfVariant.generateAndUploadPdf env (some c) nr qr st').dataAfter
        = some c) := by
  have hda : (Html2pdfVariant.generateAndUploadPdf env (some c) nr qr
      st).dataAfter = some (withDefaultSubmissionDate env c) := by
    cases ht : (tryBody env c (nr.getD "")).result with
    | ok u =>
        rw [publish_run_ok env c nr qr st hnr hu hs u ht, tryBody_dataAfter]
    | error e =>
        rw [publish_run_error env c nr qr st hnr hu hs e ht, tryBody_dataAfter]
  refine ⟨?_, ?_, ?_⟩
  · intro hfalsy
    rw [hda]
    unfold withDefaultSubmissionDate
    rw [hfalsy]
    rfl
  · intro htruthy
    rw [hda]
    unfold withDefaultSubmissionDate
    rw [htruthy]
    rfl
  · intro st' h
    rw [publish_uploading_shape env c nr qr st' hnr h]

/-- C10 witness: an absent `submissionDate` is filled with the current
time, visible in the caller's object after the call. -/
theorem submission_date_mutation_witness :
    (Html2pdfVariant.generateAndUploadPdf
        { now := "2025-06-01T12:00:00.000Z", renderOutcome := Except.ok 3000,
          uploadError := none, publicUrl := some "https://x", dbError := none }
        (some { submissionDate := none, name := "N", email := "E",
                address := "A" })
        (some "BR-1") none initialPdfUploadStatus).dataAfter
      = some { submissionDate := some "2025-06-01T12:00:00.000Z",
               name := "N", email := "E", address := "A" } :=
  (submission_date_mutation
    { now := "2025-06-01T12:00:00.000Z", renderOutcome := Except.ok 3000,
      uploadError := none, publicUrl := some "https://x", dbError := none }
    { submissionDate := none, name := "N", email := "E", address := "A" }
    (some "BR-1") none initialPdfUploadStatus (by decide) rfl rfl).1 rfl

/- ## C4: successful publish resolves with the public URL -/

/-- C4: at a concrete fully successful pipeline run (render, upload,
address resolution and record persistence all succeed), the html2pdf
variant resolves with the non-null public URL, which is the same URL
persisted on the record keyed by the identifier (uploaded under
`begleitschein_BR-12345678.pdf`) and stored in the final status
{uploading:false, success:true, error:null, url:<that URL>}; the jsPDF
variant cited by the claim computes the same success status and persists
the same URL, but then resolves with undefined (`none`): its `try` block
never returns the value the inner promise resolved with — contradicting
the claim (and the spec's `publish -> Promise<url|null>` contract). -/
theorem jspdf_variant_success_resolves_undefined :
    ((Html2pdfVariant.generateAndUploadPdf
        { now := "2025-06-01T12:00:00.000Z", renderOutcome := Except.ok 5000,
          uploadError := none,
          publicUrl := some "https://x/lieferschein/begleitschein_BR-12345678.pdf",
          dbError := none }
        (some { submissionDate := some "2025-06-01T12:00:00.000Z",
                name := "A. Tester", email := "a@test.de",
                address := "Main St 1" })
        (some "BR-12345678") none initialPdfUploadStatus)
      = { ret := some "https://x/lieferschein/begleitschein_BR-12345678.pdf"
          status := { uploading := false, success := true, error := none,
                      url := some "https://x/lieferschein/begleitschein_BR-12345678.pdf" }
          log := { uploads := 1,
                   uploadFileName := some "begleitschein_BR-12345678.pdf",
                   dbUpdates := 1,
                   dbUrl := some "https://x/lieferschein/begleitschein_BR-12345678.pdf",
                   toasts := 0 }
          containerInDom := false
          dataAfter := some { submissionDate := some "2025-06-01T12:00:00.000Z",
                              name := "A. Tester", email := "a@test.de",
                              address := "Main St 1" } })
    ∧ ((JsPdfVariant.generateAndUploadPdf
        { now := "2025-06-01T12:00:00.000Z", renderOutcome := Except.ok 5000,
          uploadError := none,
          publicUrl := some "https://x/lieferschein/begleitschein_BR-12345678.pdf",
          dbError := none }
        (some { submissionDate := some "2025-06-01T12:00:00.000Z",
                name := "A. Tester", email := "a@test.de",
                address := "Main St 1" })
        (some "BR-12345678") none initialPdfUploadStatus).status
      = { uploading := false, success := true, error := none,
          url := some "https://x/lieferschein/begleitschein_BR-12345678.pdf" })
    ∧ ((JsPdfVariant.generateAndUploadPdf
        { now := "2025-06-01T12:00:00.000Z", renderOutcome := Except.ok 5000,
          uploadError := none,
          publicUrl := some "https://x/lieferschein/begleitschein_BR-12345678.pdf",
          dbError := none }
        (some { submissionDate := some "2025-06-01T12:00:00.000Z",
                name := "A. Tester", email := "a@test.de",
                address := "Main St 1" })
        (some "BR-12345678") none initialPdfUploadStatus).ret = none) := by
  refine ⟨?_, rfl, rfl⟩
  rfl

end BoltPdf
